import Mathlib

/-!
# Style conversion: the type-erased `Convertible` handle

A shallow embedding of `include/mbgl/style/conversion.hpp`.

* A native representation (the template parameter `T` of the header) is a Lean
  type `R` together with the things the header takes from it: its move
  constructor and its `ConversionTraits<T>` specialisation.  Both are
  parameters here, bundled in `VTableForType R`, the model of the static
  `VTableForType<T>` instance.
* `Storage R` is the inline buffer of a handle.  It records the object most
  recently constructed in it and how often that object's destructor has run,
  so that object lifetimes can be counted.
* `Convertible R` is the handle: a dispatch-table pointer (`none` is the null
  pointer) and the storage.
* `assert` failures and accesses to storage holding no object are results of
  type `Except Fault`.
* `World R` holds handles at addresses, so that the operations taking
  references (move construction, move assignment, destruction) can be followed
  step by step, together with the ledger of objects whose storage is gone.
-/

namespace mbgl.style.conversion

/-! ## Plain data -/

/-- The diagnostic `struct Error { std::string message; };`. -/
structure Error where
  message : String
  deriving DecidableEq, Repr

/-- C `float`, carried by its bit pattern; this layer only passes it through. -/
structure CFloat where
  bits : Nat
  deriving DecidableEq, Repr

/-- C `double`, carried by its bit pattern; this layer only passes it through. -/
structure CDouble where
  bits : Nat
  deriving DecidableEq, Repr

/-- Modelled from the spec: the scalar variant `Value` of `mbgl/util/feature.hpp`
(not among the sources), "a closed tagged union over {bool, unsigned 64-bit,
signed 64-bit, double, text}". -/
inductive Value where
  | bool (b : Bool)
  | uint64 (n : Nat)
  | int64 (i : Int)
  | double (d : CDouble)
  | string (s : String)
  deriving DecidableEq, Repr

/-- Modelled from the spec: the document type `GeoJSON` of `mbgl/util/geojson.hpp`
(not among the sources) belongs to the geometry-parsing collaborator; this layer
only passes it through, so it is carried as an uninterpreted token. -/
structure GeoJSON where
  token : Nat
  deriving DecidableEq, Repr

/-- Ways an operation can fail to return: a failed `assert`, an access through
`reinterpret_cast` to storage in which no object was ever constructed, or a
reference to a handle that does not exist. -/
inductive Fault where
  | assertion
  | noObject
  | noHandle
  deriving DecidableEq, Repr

/-! ## The adapter contract `ConversionTraits<T>` -/

/-- The static methods a specialisation `ConversionTraits<T>` provides (header
comment, lines 47-70).  `toGeoJSON` takes the `Error&` argument and returns its
new content next to the result.  `members` lists the keys and values of an
object node in the representation's own iteration order; it is what
`eachMember` iterates over. -/
structure ConversionTraits (R : Type) where
  isUndefined : R → Bool
  isArray : R → Bool
  arrayLength : R → Nat
  arrayMember : R → Nat → R
  isObject : R → Bool
  objectMember : R → String → Option R
  members : R → List (String × R)
  toBool : R → Option Bool
  toNumber : R → Option CFloat
  toDouble : R → Option CDouble
  toString : R → Option String
  toValue : R → Option Value
  toGeoJSON : R → Error → Option GeoJSON × Error

/-- The visiting loop over a member list: call `visit` on each key and value in
order, threading the visitor's state, and stop at the first call that returns
an `Error`. -/
def visitMembers {R σ : Type} (visit : String → R → σ → Option Error × σ) :
    List (String × R) → σ → Option Error × σ
  | [], st => (none, st)
  | (k, v) :: rest, st =>
    match visit k v st with
    | (some e, st1) => (some e, st1)
    | (none, st1) => visitMembers visit rest st1

/-- Modelled from the spec: `ConversionTraits<T>::eachMember`, which every
adapter supplies outside this header: it "calls the provided lambda once for
each key and value of the object; short-circuits if any call returns an
`Error`".  The lambda may capture state by reference; that state is `σ`. -/
def ConversionTraits.eachMember {R σ : Type} (T : ConversionTraits R) (v : R)
    (visit : String → R → σ → Option Error × σ) (st : σ) : Option Error × σ :=
  visitMembers visit (T.members v) st

/-! ## Storage, dispatch table, handle -/

/-- The inline buffer `Storage` of a handle: `raw` while no object has been
constructed in it, otherwise the value of the object most recently constructed
there and the number of times that object's destructor has run. -/
inductive Storage (R : Type) where
  | raw : Storage R
  | obj (value : R) (dtorCalls : Nat) : Storage R

/-- The cast `reinterpret_cast<const T&>(s)`: the object in the buffer. -/
def Storage.read {R : Type} : Storage R → Except Fault R
  | .raw => .error .noObject
  | .obj value _ => .ok value

/-- The static `VTableForType<T>` instance, determined by what `T` brings: its
move constructor `T(T&&)`, as the pair (value of the new object, value left in
the source), and `Traits = ConversionTraits<T>`. -/
structure VTableForType (R : Type) where
  moveCtor : R → R × R
  Traits : ConversionTraits R

/-- The handle `class Convertible`: `vtable` is `none` for the null pointer. -/
structure Convertible (R : Type) where
  vtable : Option (VTableForType R)
  storage : Storage R

/-- The constructor `Convertible(T&& value)` on an rvalue: the dispatch table
is `vtableForType<T>()` and the storage receives `T(std::forward<T>(value))`. -/
def Convertible.ofValue {R : Type} (T : VTableForType R) (value : R) : Convertible R :=
  { vtable := some T, storage := .obj (T.moveCtor value).1 0 }

/-! ## Handles at addresses: construction, move, destruction -/

/-- The handles of a program run, by address (`none`: no handle lives there any
more), and the ledger `retired`: for every native object whose storage is gone
(a local that left its scope, a buffer reused by placement new, the buffer of a
destroyed handle), the number of destructor calls it received, in the order the
objects went away. -/
structure World (R : Type) where
  handles : List (Option (Convertible R))
  retired : List Nat

section Lifetime

variable {R : Type}

/-- The handle a reference points at. -/
def World.handle (w : World R) (a : Nat) : Except Fault (Convertible R) :=
  match w.handles[a]? with
  | some (some h) => .ok h
  | _ => .error .noHandle

/-- Write through a reference to a handle. -/
def World.put (w : World R) (a : Nat) (h : Convertible R) : World R :=
  { w with handles := w.handles.set a (some h) }

/-- The object in a buffer goes away with the buffer (or is overwritten): its
destructor-call count enters the ledger. -/
def World.retire (w : World R) : Storage R → World R
  | .raw => w
  | .obj _ n => { w with retired := w.retired ++ [n] }

/-- An explicit or implicit destructor call `.~T()` on the object in a buffer. -/
def Storage.destruct : Storage R → Except Fault (Storage R)
  | .raw => .error .noObject
  | .obj value n => .ok (.obj value (n + 1))

/-- Override `move(Storage&& src, Storage& dest)`, lines 232-236, on the buffers of
the handles at `src` and `dest`:
`auto srcValue = reinterpret_cast<T&&>(src);` declares a local object of type
`T` (plain `auto` never deduces a reference), move-constructed from the object
in `src`; `new (&dest) T(std::move(srcValue));` constructs the object in `dest`
from the local; `srcValue.~T();` destroys the local, and leaving the scope
destroys the local again. -/
def VTableForType.move (vt : VTableForType R) (w : World R) (src dest : Nat) :
    Except Fault (World R) :=
  match w.handle src with
  | .error f => .error f
  | .ok hs =>
    match hs.storage with
    | .raw => .error .noObject
    | .obj sv sn =>
      -- auto srcValue = reinterpret_cast<T&&>(src);
      let srcValue : R := (vt.moveCtor sv).1
      let w1 := w.put src { hs with storage := .obj (vt.moveCtor sv).2 sn }
      match w1.handle dest with
      | .error f => .error f
      | .ok hd =>
        -- new (static_cast<void*>(&dest)) T(std::move(srcValue));
        let w2 := (w1.retire hd.storage).put dest
          { hd with storage := .obj (vt.moveCtor srcValue).1 0 }
        let local0 : Storage R := .obj (vt.moveCtor srcValue).2 0
        -- srcValue.~T();
        match local0.destruct with
        | .error f => .error f
        | .ok local1 =>
          -- closing brace: the local is destroyed, then its storage is gone
          match local1.destruct with
          | .error f => .error f
          | .ok local2 => .ok (w2.retire local2)

/-- Override `destroy(Storage& s)`, lines 238-240, on the buffer of the handle at
`a`: `reinterpret_cast<T&>(s).~T();`. -/
def VTableForType.destroy (_vt : VTableForType R) (w : World R) (a : Nat) :
    Except Fault (World R) :=
  match w.handle a with
  | .error f => .error f
  | .ok h =>
    match h.storage.destruct with
    | .error f => .error f
    | .ok s => .ok (w.put a { h with storage := s })

/-- A handle is constructed from a native value by `Convertible(T&& value)`, at a
fresh address, which is returned. -/
def World.construct (w : World R) (T : VTableForType R) (value : R) : World R × Nat :=
  ({ w with handles := w.handles ++ [some (Convertible.ofValue T value)] }, w.handles.length)

/-- The move constructor `Convertible(Convertible&& v)`, lines 93-99: a new
handle at a fresh address (returned), `vtable(v.vtable)`, then
`if (vtable) vtable->move(std::move(v.storage), this->storage);`. -/
def World.moveConstruct (w : World R) (v : Nat) : Except Fault (World R × Nat) :=
  match w.handle v with
  | .error f => .error f
  | .ok hv =>
    let this := w.handles.length
    let w0 : World R :=
      { w with handles := w.handles ++ [some { vtable := hv.vtable, storage := .raw }] }
    match hv.vtable with
    | some vt =>
      match vt.move w0 v this with
      | .error f => .error f
      | .ok w1 => .ok (w1, this)
    | none => .ok (w0, this)

/-- The lifetime of the handle at `a` ends: its buffer goes away, and the object
in it with it. -/
def World.release (w : World R) (a : Nat) : Except Fault (World R) :=
  match w.handle a with
  | .error f => .error f
  | .ok h => .ok { handles := w.handles.set a none, retired := (w.retire h.storage).retired }

/-- The destructor `~Convertible()`, lines 101-105, of the handle at `a`:
`if (vtable) vtable->destroy(storage);`.  Afterwards the handle is gone. -/
def World.destroyHandle (w : World R) (a : Nat) : Except Fault (World R) :=
  match w.handle a with
  | .error f => .error f
  | .ok h =>
    let body : Except Fault (World R) :=
      match h.vtable with
      | some vt => vt.destroy w a
      | none => .ok w
    match body with
    | .error f => .error f
    | .ok w1 => w1.release a

/-- Move assignment `operator=(Convertible&& v)`, lines 107-117, on the handle at
`this` with the handle at `v` as argument. -/
def World.moveAssign (w : World R) (this v : Nat) : Except Fault (World R) :=
  match w.handle this with
  | .error f => .error f
  | .ok h =>
    -- if (vtable) { vtable->destroy(storage); }
    let step1 : Except Fault (World R) :=
      match h.vtable with
      | some vt => vt.destroy w this
      | none => .ok w
    match step1 with
    | .error f => .error f
    | .ok w1 =>
      match w1.handle this, w1.handle v with
      | .error f, _ => .error f
      | _, .error f => .error f
      | .ok h1, .ok hv =>
        -- vtable = v.vtable;
        let w2 := w1.put this { h1 with vtable := hv.vtable }
        -- if (vtable) { vtable->move(std::move(v.storage), this->storage); }
        -- (the pointer tested is the one just assigned, hv.vtable)
        let step3 : Except Fault (World R) :=
          match hv.vtable with
          | some vt => vt.move w2 v this
          | none => .ok w2
        match step3 with
        | .error f => .error f
        | .ok w3 =>
          -- v.vtable = nullptr;
          match w3.handle v with
          | .error f => .error f
          | .ok hv3 => .ok (w3.put v { hv3 with vtable := none })

/-- The expression `optional<Convertible>(Convertible(std::move(*member)))` of
line 265: the templated constructor makes a temporary handle from the member,
the handle inside the optional is move-constructed from that temporary by
`Convertible(Convertible&&)` (so the relocation `move` runs), and the temporary
is destroyed at the end of the full expression.  The result is the handle
inside the optional. -/
def Convertible.intoOptional (T : VTableForType R) (member : R) :
    Except Fault (Convertible R) :=
  -- Convertible(std::move(*member))
  let temporary := World.construct { handles := [], retired := [] } T member
  -- optional<Convertible>(...)
  match temporary.1.moveConstruct temporary.2 with
  | .error f => .error f
  | .ok (w1, inOptional) =>
    -- the temporary goes away
    match w1.destroyHandle temporary.2 with
    | .error f => .error f
    | .ok w2 => w2.handle inOptional

end Lifetime

namespace VTableForType

variable {R : Type}

/-- Override `isUndefined`, lines 242-244. -/
def isUndefined (vt : VTableForType R) (s : Storage R) : Except Fault Bool :=
  match s.read with
  | .error f => .error f
  | .ok r => .ok (vt.Traits.isUndefined r)

/-- Override `isArray`, lines 246-248. -/
def isArray (vt : VTableForType R) (s : Storage R) : Except Fault Bool :=
  match s.read with
  | .error f => .error f
  | .ok r => .ok (vt.Traits.isArray r)

/-- Override `arrayLength`, lines 250-252. -/
def arrayLength (vt : VTableForType R) (s : Storage R) : Except Fault Nat :=
  match s.read with
  | .error f => .error f
  | .ok r => .ok (vt.Traits.arrayLength r)

/-- Override `arrayMember`, lines 254-256: the member is wrapped by the
templated constructor at the same `T`. -/
def arrayMember (vt : VTableForType R) (s : Storage R) (i : Nat) :
    Except Fault (Convertible R) :=
  match s.read with
  | .error f => .error f
  | .ok r => .ok (Convertible.ofValue vt (vt.Traits.arrayMember r i))

/-- Override `isObject`, lines 258-260. -/
def isObject (vt : VTableForType R) (s : Storage R) : Except Fault Bool :=
  match s.read with
  | .error f => .error f
  | .ok r => .ok (vt.Traits.isObject r)

/-- Override `objectMember`, lines 262-269: a member that is present is wrapped
by the templated constructor and moved into the returned optional. -/
def objectMember (vt : VTableForType R) (s : Storage R) (key : String) :
    Except Fault (Option (Convertible R)) :=
  match s.read with
  | .error f => .error f
  | .ok r =>
    match vt.Traits.objectMember r key with
    | some member =>
      match Convertible.intoOptional vt member with
      | .error f => .error f
      | .ok inOptional => .ok (some inOptional)
    | none => .ok none

/-- Override `eachMember`, lines 271-275: the adapter's `eachMember` is run with
a lambda that wraps each value and hands it to `fn`. -/
def eachMember {σ : Type} (vt : VTableForType R) (s : Storage R)
    (fn : String → Convertible R → σ → Option Error × σ) (st : σ) :
    Except Fault (Option Error × σ) :=
  match s.read with
  | .error f => .error f
  | .ok r => .ok (vt.Traits.eachMember r (fun k v => fn k (Convertible.ofValue vt v)) st)

/-- Override `toBool`, lines 277-279. -/
def toBool (vt : VTableForType R) (s : Storage R) : Except Fault (Option Bool) :=
  match s.read with
  | .error f => .error f
  | .ok r => .ok (vt.Traits.toBool r)

/-- Override `toNumber`, lines 281-283. -/
def toNumber (vt : VTableForType R) (s : Storage R) : Except Fault (Option CFloat) :=
  match s.read with
  | .error f => .error f
  | .ok r => .ok (vt.Traits.toNumber r)

/-- Override `toDouble`, lines 285-287. -/
def toDouble (vt : VTableForType R) (s : Storage R) : Except Fault (Option CDouble) :=
  match s.read with
  | .error f => .error f
  | .ok r => .ok (vt.Traits.toDouble r)

/-- Override `toString`, lines 289-291. -/
def toString (vt : VTableForType R) (s : Storage R) : Except Fault (Option String) :=
  match s.read with
  | .error f => .error f
  | .ok r => .ok (vt.Traits.toString r)

/-- Override `toValue`, lines 293-295. -/
def toValue (vt : VTableForType R) (s : Storage R) : Except Fault (Option Value) :=
  match s.read with
  | .error f => .error f
  | .ok r => .ok (vt.Traits.toValue r)

/-- Override `toGeoJSON`, lines 297-299. -/
def toGeoJSON (vt : VTableForType R) (s : Storage R) (err : Error) :
    Except Fault (Option GeoJSON × Error) :=
  match s.read with
  | .error f => .error f
  | .ok r => .ok (vt.Traits.toGeoJSON r err)

end VTableForType

/-! ## The friend query functions, lines 123-186 -/

section Queries

variable {R : Type}

/-- Friend `isUndefined`: `assert(v.vtable)`, then dispatch. -/
def isUndefined (v : Convertible R) : Except Fault Bool :=
  match v.vtable with
  | none => .error .assertion
  | some vt => vt.isUndefined v.storage

/-- Friend `isArray`. -/
def isArray (v : Convertible R) : Except Fault Bool :=
  match v.vtable with
  | none => .error .assertion
  | some vt => vt.isArray v.storage

/-- Friend `arrayLength`. -/
def arrayLength (v : Convertible R) : Except Fault Nat :=
  match v.vtable with
  | none => .error .assertion
  | some vt => vt.arrayLength v.storage

/-- Friend `arrayMember`. -/
def arrayMember (v : Convertible R) (i : Nat) : Except Fault (Convertible R) :=
  match v.vtable with
  | none => .error .assertion
  | some vt => vt.arrayMember v.storage i

/-- Friend `isObject`. -/
def isObject (v : Convertible R) : Except Fault Bool :=
  match v.vtable with
  | none => .error .assertion
  | some vt => vt.isObject v.storage

/-- Friend `objectMember`. -/
def objectMember (v : Convertible R) (name : String) :
    Except Fault (Option (Convertible R)) :=
  match v.vtable with
  | none => .error .assertion
  | some vt => vt.objectMember v.storage name

/-- Friend `eachMember`. -/
def eachMember {σ : Type} (v : Convertible R)
    (fn : String → Convertible R → σ → Option Error × σ) (st : σ) :
    Except Fault (Option Error × σ) :=
  match v.vtable with
  | none => .error .assertion
  | some vt => vt.eachMember v.storage fn st

/-- Friend `toBool`. -/
def toBool (v : Convertible R) : Except Fault (Option Bool) :=
  match v.vtable with
  | none => .error .assertion
  | some vt => vt.toBool v.storage

/-- Friend `toNumber`. -/
def toNumber (v : Convertible R) : Except Fault (Option CFloat) :=
  match v.vtable with
  | none => .error .assertion
  | some vt => vt.toNumber v.storage

/-- Friend `toDouble`. -/
def toDouble (v : Convertible R) : Except Fault (Option CDouble) :=
  match v.vtable with
  | none => .error .assertion
  | some vt => vt.toDouble v.storage

/-- Friend `toString`. -/
def toString (v : Convertible R) : Except Fault (Option String) :=
  match v.vtable with
  | none => .error .assertion
  | some vt => vt.toString v.storage

/-- Friend `toValue`. -/
def toValue (v : Convertible R) : Except Fault (Option Value) :=
  match v.vtable with
  | none => .error .assertion
  | some vt => vt.toValue v.storage

/-- Friend `toGeoJSON`. -/
def toGeoJSON (v : Convertible R) (error : Error) : Except Fault (Option GeoJSON × Error) :=
  match v.vtable with
  | none => .error .assertion
  | some vt => vt.toGeoJSON v.storage error

end Queries

/-- The requirement on a native type that its move constructor gives the new
object the value the source had ("relocatable by a move-construct-then-destroy-
source sequence without invalidating the conceptual value"). -/
def ValuePreservingMove {R : Type} (T : VTableForType R) : Prop :=
  ∀ r : R, (T.moveCtor r).1 = r

/-! ## The conversion entry point, lines 312-318 -/

/-- The entry point `convert<T>(value, error, args...)`, which is
`Converter<T>()(value, error, args...)`.
The routine `Converter<T>` is a specialisation supplied outside this header; it
is the parameter `converter`.  It receives the `Error&` slot and returns its
new content next to the result. -/
def convert {R T Args : Type}
    (converter : Convertible R → Error → Args → Option T × Error)
    (value : Convertible R) (error : Error) (args : Args) : Option T × Error :=
  converter value error args

/-- Modelled from the spec: the contract of the conversion routines (the
`Converter<T>` specialisations, not among the sources): "if the routine
returns empty, `errorOut` is guaranteed populated with a human-readable
explanation; if it returns present, `errorOut` is untouched." -/
def ConverterContract {R T Args : Type}
    (converter : Convertible R → Error → Args → Option T × Error) : Prop :=
  ∀ (value : Convertible R) (error : Error) (args : Args),
    ((converter value error args).1 = none → (converter value error args).2.message ≠ "") ∧
    ((converter value error args).1.isSome = true → (converter value error args).2 = error)

/-- Modelled from the spec: the text of a "populated diagnostic error", a
human-readable explanation of why a conversion failed; populated means that the
text is not empty. -/
structure Explanation where
  text : String
  populated : text ≠ ""

/-- Modelled from the spec: the conversion result, "for any target domain type
T, either a present value of T or an empty result accompanied by a populated
diagnostic error; these two outcomes are mutually exclusive and exhaustive". -/
inductive ConversionResult (T : Type) where
  | present (value : T)
  | failed (diagnostic : Explanation)

/-- Modelled from the spec: a conversion routine `Converter<T>`; the
specialisations are not among the sources.  A routine walks the handle through
the query surface, with its extra arguments, and "either builds a domain value
or returns a diagnostic": `outcome` is that decision. -/
structure Converter (R T Args : Type) where
  outcome : Convertible R → Args → ConversionResult T

/-- Modelled from the spec: the call `Converter<T>()(value, error, args...)`, which
reports the outcome of the routine through the result and the `Error&` slot: a
present value is returned and the slot is not written ("if it returns present,
`errorOut` is untouched"); on a failure nothing is returned and the diagnostic
is written to the slot ("an empty result plus a populated diagnostic error"). -/
def Converter.call {R T Args : Type} (routine : Converter R T Args)
    (value : Convertible R) (error : Error) (args : Args) : Option T × Error :=
  match routine.outcome value args with
  | .present t => (some t, error)
  | .failed diagnostic => (none, { message := diagnostic.text })

/-! ## The size of the inline storage, lines 189-199, and the `static_assert`, line 89 -/

/-- The preprocessor symbols the header tests. -/
structure Platform where
  android : Bool
  qt : Bool
  deriving DecidableEq, Repr

/-- The `Len` argument of `std::aligned_storage_t<Len, Align>` chosen by
`#if __ANDROID__ ... #elif __QT__ ... #else`. -/
def storageLen (p : Platform) : Nat :=
  if p.android then 32 else if p.qt then 32 else 8

/-- The `Align` argument of `std::aligned_storage_t<Len, Align>`: 8 in every branch. -/
def storageAlign (p : Platform) : Nat :=
  if p.android then 8 else if p.qt then 8 else 8

/-- The value of `sizeof(Storage)`: `Len` rounded up to a multiple of `Align`. -/
def sizeofStorage (p : Platform) : Nat :=
  (storageLen p + storageAlign p - 1) / storageAlign p * storageAlign p

/-- The `static_assert(sizeof(Storage) >= sizeof(std::decay_t<T>), ...)` of the
templated constructor, for a native type of size `sizeofT`: whether the
construction compiles. -/
def staticAssertHolds (p : Platform) (sizeofT : Nat) : Bool :=
  decide (sizeofStorage p ≥ sizeofT)

/-! ## Observing the visits of `eachMember` -/

/-- A visitor whose captured state is the list of the calls it has received so
far, and whose return value is decided by `verdict` from those earlier calls and
the current key and handle.  Every deterministic visitor behaves like one of
these. -/
def recordingVisitor {R : Type}
    (verdict : List (String × Convertible R) → String → Convertible R → Option Error) :
    String → Convertible R → List (String × Convertible R) →
      Option Error × List (String × Convertible R) :=
  fun key value seen => (verdict seen key value, seen ++ [(key, value)])

/-- The members of `r`, each value wrapped in a handle with the dispatch table
`T`, in the adapter's iteration order. -/
def wrappedMembers {R : Type} (T : VTableForType R) (r : R) :
    List (String × Convertible R) :=
  (T.Traits.members r).map
    (fun kv => (kv.1, ({ vtable := some T, storage := .obj kv.2 0 } : Convertible R)))

/-! ## A small native representation, used to instantiate the statements -/

namespace Example

/-- A JSON-like tree without numbers. -/
inductive Node where
  | null
  | bool (b : Bool)
  | string (s : String)
  | array (items : List Node)
  | object (members : List (String × Node))

/-- An adapter for `Node`. -/
def nodeTraits : ConversionTraits Node where
  isUndefined r := match r with | .null => true | _ => false
  isArray r := match r with | .array _ => true | _ => false
  arrayLength r := match r with | .array items => items.length | _ => 0
  arrayMember r i := match r with | .array items => items.getD i .null | _ => .null
  isObject r := match r with | .object _ => true | _ => false
  objectMember r name := match r with | .object members => members.lookup name | _ => none
  members r := match r with | .object members => members | _ => []
  toBool r := match r with | .bool b => some b | _ => none
  toNumber _ := none
  toDouble _ := none
  toString r := match r with | .string s => some s | _ => none
  toValue r := match r with
    | .bool b => some (.bool b)
    | .string s => some (.string s)
    | _ => none
  toGeoJSON _ _ := (none, { message := "GeoJSON must be an object" })

/-- The native type `Node`: moving leaves a null node behind. -/
def nodeType : VTableForType Node where
  moveCtor r := (r, .null)
  Traits := nodeTraits

/-- The document `{"a": [true, "x"], "b": "y"}`. -/
def doc : Node :=
  .object [("a", .array [.bool true, .string "x"]), ("b", .string "y")]

/-- A conversion routine that expects an object and returns its member count. -/
def memberCount (value : Convertible Node) (error : Error) (_args : Unit) :
    Option Nat × Error :=
  match isObject value with
  | .ok true =>
    match eachMember value (fun _ _ n => (none, n + 1)) 0 with
    | .ok (none, n) => (some n, error)
    | _ => (none, { message := "object members must be readable" })
  | _ => (none, { message := "value must be an object" })

/-- A visitor decision: the member named `b` is rejected, whatever was visited
before. -/
def rejectB (_seen : List (String × Convertible Node)) (key : String)
    (_value : Convertible Node) : Option Error :=
  if key = "b" then some { message := "unknown member b" } else none

/-- A conversion routine that expects an object and builds its member count. -/
def memberCountRoutine : Converter Node Nat Unit where
  outcome value _ :=
    match isObject value with
    | .ok true =>
      match eachMember value (fun _ _ n => (none, n + 1)) 0 with
      | .ok (none, n) => .present n
      | _ => .failed { text := "object members must be readable", populated := by decide }
    | _ => .failed { text := "value must be an object", populated := by decide }

/-- The empty world. -/
def empty : World Node := { handles := [], retired := [] }

/-- Handle A is constructed from `doc`; B is move-constructed from A; B, then A,
are destroyed. -/
def moveConstructRun : Except Fault (World Node) :=
  match (empty.construct nodeType doc).1.moveConstruct 0 with
  | .error f => .error f
  | .ok (w, b) =>
    match w.destroyHandle b with
    | .error f => .error f
    | .ok w1 => w1.destroyHandle 0

/-- Handle A is constructed from `doc` and B from a string node; A is
move-assigned to B; A, then B, are destroyed. -/
def moveAssignRun : Except Fault (World Node) :=
  match (((empty.construct nodeType doc).1.construct nodeType (.string "old")).1).moveAssign 1 0 with
  | .error f => .error f
  | .ok w =>
    match w.destroyHandle 0 with
    | .error f => .error f
    | .ok w1 => w1.destroyHandle 1

end Example

/-! ## Numeric nodes and the scalar extraction of an adapter -/

/-- Modelled from the spec: the number a numeric native node holds.  The adapters
and the native representations are not among the sources; a native
representation holds a number as an unsigned 64-bit integer (`n < 2^64`), as a
signed 64-bit integer (`-2^63 ≤ i < 2^63`) or as a double.  A double is carried
by its bit pattern and is not interpreted. -/
inductive NativeNumber where
  | unsignedInt (n : Nat)
  | signedInt (i : Int)
  | real (d : CDouble)
  deriving DecidableEq, Repr

namespace NativeNumber

/-- The integer a numeric node holds, when it holds one. -/
def integer : NativeNumber → Option Int
  | .unsignedInt n => some (Int.ofNat n)
  | .signedInt i => some i
  | .real _ => none

/-- The number as an unsigned 64-bit integer, when it can be converted to one
without loss. -/
def asUnsigned : NativeNumber → Option Nat
  | .unsignedInt n => some n
  | .signedInt i => if 0 ≤ i then some i.toNat else none
  | .real _ => none

/-- The number as a signed 64-bit integer, when it can be converted to one
without loss. -/
def asSigned : NativeNumber → Option Int
  | .unsignedInt n => if n < 2 ^ 63 then some (Int.ofNat n) else none
  | .signedInt i => some i
  | .real _ => none

/-- The number as a double, for a number held as a double.  Every number held as
an integer is taken by one of the integer conversions, and the conversion of an
integer to floating point is left out. -/
def asDouble : NativeNumber → Option CDouble
  | .real d => some d
  | _ => none

end NativeNumber

/-- Modelled from the spec: `ConversionTraits<T>::toValue` on a numeric node,
which the adapters supply outside this header: "Numbers should be converted to
unsigned integer, signed integer, or floating point, in descending
preference." -/
def numberToValue (x : NativeNumber) : Option Value :=
  match x.asUnsigned with
  | some n => some (.uint64 n)
  | none =>
    match x.asSigned with
    | some i => some (.int64 i)
    | none =>
      match x.asDouble with
      | some d => some (.double d)
      | none => none

namespace Example

/-- An adapter for a native representation whose nodes are bare numbers.  Its
`toValue` is the scalar extraction of the contract; narrowing to `float` and the
reading of an integer as a double are floating-point conversions and are left
out. -/
def numberTraits : ConversionTraits NativeNumber where
  isUndefined _ := false
  isArray _ := false
  arrayLength _ := 0
  arrayMember r _ := r
  isObject _ := false
  objectMember _ _ := none
  members _ := []
  toBool _ := none
  toNumber _ := none
  toDouble r := r.asDouble
  toString _ := none
  toValue r := numberToValue r
  toGeoJSON _ _ := (none, { message := "GeoJSON must be an object" })

/-- The native type of bare numbers: a number is copied by a move. -/
def numberType : VTableForType NativeNumber where
  moveCtor r := (r, r)
  Traits := numberTraits

/-- The double 3.5: sign 0, exponent 1024, fraction 0.75, that is the bit pattern
`0x400C000000000000`. -/
def threeAndHalf : CDouble := { bits := 0x400C000000000000 }

end Example

/-! # Theorems -/

section QueryTheorems

variable {R : Type}

/-- C1: for a native type whose move constructor preserves the value, each
scalar or kind query on the handle constructed from `r` returns what the
adapter function of the same name returns on `r`; `toGeoJSON` also leaves the
error argument as the adapter does. -/
theorem query_forwarding (T : VTableForType R) (hT : ValuePreservingMove T) (r : R) :
    isUndefined (Convertible.ofValue T r) = .ok (T.Traits.isUndefined r) ∧
    isArray (Convertible.ofValue T r) = .ok (T.Traits.isArray r) ∧
    arrayLength (Convertible.ofValue T r) = .ok (T.Traits.arrayLength r) ∧
    isObject (Convertible.ofValue T r) = .ok (T.Traits.isObject r) ∧
    toBool (Convertible.ofValue T r) = .ok (T.Traits.toBool r) ∧
    toNumber (Convertible.ofValue T r) = .ok (T.Traits.toNumber r) ∧
    toDouble (Convertible.ofValue T r) = .ok (T.Traits.toDouble r) ∧
    toString (Convertible.ofValue T r) = .ok (T.Traits.toString r) ∧
    toValue (Convertible.ofValue T r) = .ok (T.Traits.toValue r) ∧
    ∀ err : Error, toGeoJSON (Convertible.ofValue T r) err = .ok (T.Traits.toGeoJSON r err) := by
  have h := hT r
  refine ⟨?_, ?_, ?_, ?_, ?_, ?_, ?_, ?_, ?_, ?_⟩
  · simp [isUndefined, VTableForType.isUndefined, Convertible.ofValue, Storage.read, h]
  · simp [isArray, VTableForType.isArray, Convertible.ofValue, Storage.read, h]
  · simp [arrayLength, VTableForType.arrayLength, Convertible.ofValue, Storage.read, h]
  · simp [isObject, VTableForType.isObject, Convertible.ofValue, Storage.read, h]
  · simp [toBool, VTableForType.toBool, Convertible.ofValue, Storage.read, h]
  · simp [toNumber, VTableForType.toNumber, Convertible.ofValue, Storage.read, h]
  · simp [toDouble, VTableForType.toDouble, Convertible.ofValue, Storage.read, h]
  · simp [toString, VTableForType.toString, Convertible.ofValue, Storage.read, h]
  · simp [toValue, VTableForType.toValue, Convertible.ofValue, Storage.read, h]
  · intro err
    simp [toGeoJSON, VTableForType.toGeoJSON, Convertible.ofValue, Storage.read, h]

end QueryTheorems

/-- The move constructor of the example type preserves the value. -/
theorem Example.nodeType_valuePreserving : ValuePreservingMove Example.nodeType :=
  fun _ => rfl

/-- C1 at the example document: the handle answers as the adapter does. -/
theorem query_forwarding_witness :
    ValuePreservingMove Example.nodeType ∧
    isObject (Convertible.ofValue Example.nodeType Example.doc) = .ok true ∧
    isArray (Convertible.ofValue Example.nodeType Example.doc) = .ok false ∧
    toString (Convertible.ofValue Example.nodeType (.string "y")) = .ok (some "y") :=
  ⟨Example.nodeType_valuePreserving,
   (query_forwarding Example.nodeType Example.nodeType_valuePreserving Example.doc).2.2.2.1,
   (query_forwarding Example.nodeType Example.nodeType_valuePreserving Example.doc).2.1,
   (query_forwarding Example.nodeType Example.nodeType_valuePreserving
      (.string "y")).2.2.2.2.2.2.2.1⟩

/-- The handle inside the optional of line 265 holds the member after three
moves: one by the templated constructor and two by the relocation. -/
theorem Convertible.intoOptional_eq {R : Type} (T : VTableForType R) (member : R) :
    Convertible.intoOptional T member =
      .ok { vtable := some T,
            storage := .obj (T.moveCtor (T.moveCtor (T.moveCtor member).1).1).1 0 } :=
  rfl

/-- The override `objectMember` on a storage holding `r`: nothing when the adapter
finds no member, otherwise the handle on the three times moved member. -/
theorem VTableForType.objectMember_obj {R : Type} (T : VTableForType R) (r : R) (n : Nat)
    (name : String) :
    T.objectMember (.obj r n) name =
      .ok ((T.Traits.objectMember r name).map (fun m =>
        { vtable := some T,
          storage := .obj (T.moveCtor (T.moveCtor (T.moveCtor m).1).1).1 0 })) := by
  simp only [VTableForType.objectMember, Storage.read]
  cases T.Traits.objectMember r name with
  | none => rfl
  | some m => simp [Convertible.intoOptional_eq]

/-- C5: on the handle constructed from `r` (move constructor preserving the
value), `arrayMember` returns a new handle that has the dispatch table of the
parent and holds the adapter's array member, and `objectMember` returns nothing
exactly when the adapter finds no member and otherwise a new handle, the one
move-constructed into the returned optional from the temporary that wraps the
member, that has the dispatch table of the parent and holds the adapter's
member. -/
theorem member_handles_same_type {R : Type} (T : VTableForType R)
    (hT : ValuePreservingMove T) (r : R) :
    (∀ i : Nat, arrayMember (Convertible.ofValue T r) i =
      .ok { vtable := some T, storage := .obj (T.Traits.arrayMember r i) 0 }) ∧
    (∀ name : String, objectMember (Convertible.ofValue T r) name =
      .ok ((T.Traits.objectMember r name).map
        (fun m => { vtable := some T, storage := .obj m 0 }))) ∧
    (∀ name : String, (objectMember (Convertible.ofValue T r) name = .ok none ↔
      T.Traits.objectMember r name = none)) := by
  have h := hT r
  have hobj : ∀ name : String, objectMember (Convertible.ofValue T r) name =
      .ok ((T.Traits.objectMember r name).map
        (fun m => { vtable := some T, storage := .obj m 0 })) := by
    intro name
    simp only [objectMember, Convertible.ofValue, VTableForType.objectMember_obj, h]
    cases hm : T.Traits.objectMember r name with
    | none => simp
    | some m => simp [hT m]
  refine ⟨?_, hobj, ?_⟩
  · intro i
    simp [arrayMember, VTableForType.arrayMember, Convertible.ofValue, Storage.read, h,
      hT (T.Traits.arrayMember r i)]
  · intro name
    rw [hobj name]
    cases hm : T.Traits.objectMember r name <;> simp

/-- C5 at the example document: member `a` is a handle on the array with the
same dispatch table, member `c` is absent, and element 1 of the array is a
handle on the string `x`. -/
theorem member_handles_same_type_witness :
    ValuePreservingMove Example.nodeType ∧
    objectMember (Convertible.ofValue Example.nodeType Example.doc) "a" =
      .ok (some { vtable := some Example.nodeType,
                  storage := .obj (.array [.bool true, .string "x"]) 0 }) ∧
    objectMember (Convertible.ofValue Example.nodeType Example.doc) "c" = .ok none ∧
    arrayMember (Convertible.ofValue Example.nodeType (.array [.bool true, .string "x"])) 1 =
      .ok { vtable := some Example.nodeType, storage := .obj (.string "x") 0 } :=
  ⟨Example.nodeType_valuePreserving,
   (member_handles_same_type Example.nodeType Example.nodeType_valuePreserving
      Example.doc).2.1 "a",
   (member_handles_same_type Example.nodeType Example.nodeType_valuePreserving
      Example.doc).2.1 "c",
   (member_handles_same_type Example.nodeType Example.nodeType_valuePreserving
      (.array [.bool true, .string "x"])).1 1⟩

/-- C8: on a handle whose dispatch-table pointer is null each of the thirteen
queries fails its assertion, whatever the storage holds and whatever the
arguments are, so no adapter function is reached; on a handle whose pointer is
set the assertion passes and the query is the dispatch-table call; and on a
handle just constructed from a native value every query returns a result. -/
theorem queries_assert_vtable {R : Type} (vt : VTableForType R) (s : Storage R) (r : R) :
    (isUndefined ({ vtable := none, storage := s } : Convertible R) = .error .assertion ∧
     isArray ({ vtable := none, storage := s } : Convertible R) = .error .assertion ∧
     arrayLength ({ vtable := none, storage := s } : Convertible R) = .error .assertion ∧
     isObject ({ vtable := none, storage := s } : Convertible R) = .error .assertion ∧
     toBool ({ vtable := none, storage := s } : Convertible R) = .error .assertion ∧
     toNumber ({ vtable := none, storage := s } : Convertible R) = .error .assertion ∧
     toDouble ({ vtable := none, storage := s } : Convertible R) = .error .assertion ∧
     toString ({ vtable := none, storage := s } : Convertible R) = .error .assertion ∧
     toValue ({ vtable := none, storage := s } : Convertible R) = .error .assertion ∧
     (∀ i : Nat, arrayMember ({ vtable := none, storage := s } : Convertible R) i = .error .assertion) ∧
     (∀ name : String,
      objectMember ({ vtable := none, storage := s } : Convertible R) name = .error .assertion) ∧
     (∀ (σ : Type) (fn : String → Convertible R → σ → Option Error × σ) (st : σ),
      eachMember ({ vtable := none, storage := s } : Convertible R) fn st = .error .assertion) ∧
     (∀ err : Error,
      toGeoJSON ({ vtable := none, storage := s } : Convertible R) err = .error .assertion)) ∧
    (isUndefined { vtable := some vt, storage := s } = vt.isUndefined s ∧
     isArray { vtable := some vt, storage := s } = vt.isArray s ∧
     arrayLength { vtable := some vt, storage := s } = vt.arrayLength s ∧
     isObject { vtable := some vt, storage := s } = vt.isObject s ∧
     toBool { vtable := some vt, storage := s } = vt.toBool s ∧
     toNumber { vtable := some vt, storage := s } = vt.toNumber s ∧
     toDouble { vtable := some vt, storage := s } = vt.toDouble s ∧
     toString { vtable := some vt, storage := s } = vt.toString s ∧
     toValue { vtable := some vt, storage := s } = vt.toValue s ∧
     (∀ i : Nat, arrayMember { vtable := some vt, storage := s } i = vt.arrayMember s i) ∧
     (∀ name : String,
      objectMember { vtable := some vt, storage := s } name = vt.objectMember s name) ∧
     (∀ (σ : Type) (fn : String → Convertible R → σ → Option Error × σ) (st : σ),
      eachMember { vtable := some vt, storage := s } fn st = vt.eachMember s fn st) ∧
     (∀ err : Error, toGeoJSON { vtable := some vt, storage := s } err = vt.toGeoJSON s err)) ∧
    ((∃ res, isUndefined (Convertible.ofValue vt r) = .ok res) ∧
     (∃ res, isArray (Convertible.ofValue vt r) = .ok res) ∧
     (∃ res, arrayLength (Convertible.ofValue vt r) = .ok res) ∧
     (∃ res, isObject (Convertible.ofValue vt r) = .ok res) ∧
     (∃ res, toBool (Convertible.ofValue vt r) = .ok res) ∧
     (∃ res, toNumber (Convertible.ofValue vt r) = .ok res) ∧
     (∃ res, toDouble (Convertible.ofValue vt r) = .ok res) ∧
     (∃ res, toString (Convertible.ofValue vt r) = .ok res) ∧
     (∃ res, toValue (Convertible.ofValue vt r) = .ok res) ∧
     (∀ i : Nat, ∃ res, arrayMember (Convertible.ofValue vt r) i = .ok res) ∧
     (∀ name : String, ∃ res, objectMember (Convertible.ofValue vt r) name = .ok res) ∧
     (∀ (σ : Type) (fn : String → Convertible R → σ → Option Error × σ) (st : σ),
      ∃ res, eachMember (Convertible.ofValue vt r) fn st = .ok res) ∧
     (∀ err : Error, ∃ res, toGeoJSON (Convertible.ofValue vt r) err = .ok res)) := by
  refine ⟨⟨?_, ?_, ?_, ?_, ?_, ?_, ?_, ?_, ?_, ?_, ?_, ?_, ?_⟩,
    ⟨?_, ?_, ?_, ?_, ?_, ?_, ?_, ?_, ?_, ?_, ?_, ?_, ?_⟩,
    ⟨?_, ?_, ?_, ?_, ?_, ?_, ?_, ?_, ?_, ?_, ?_, ?_, ?_⟩⟩
  all_goals first
    | rfl
    | exact ⟨_, rfl⟩
    | (intro σ fn st; first | rfl | exact ⟨_, rfl⟩)
    | (intro x; first | rfl | exact ⟨_, rfl⟩)
    | (intro name
       simp only [objectMember, Convertible.ofValue, VTableForType.objectMember_obj]
       exact ⟨_, rfl⟩)

/-- The example routine keeps the contract of the conversion routines. -/
theorem Example.memberCount_contract : ConverterContract Example.memberCount := by
  intro value error args
  unfold Example.memberCount
  split
  · split
    · simp
    · simp
  · simp

/-- The call of a modelled conversion routine keeps the contract of the conversion
routines. -/
theorem Converter.call_contract {R T Args : Type} (routine : Converter R T Args) :
    ConverterContract routine.call := by
  intro value error args
  unfold Converter.call
  cases routine.outcome value args with
  | present t => simp
  | failed diagnostic => simpa using diagnostic.populated

/-- C7: `convert` returns the result of the conversion routine applied to the
same handle, error slot and arguments, whatever the routine is.  For every
conversion routine, called as `Converter<T>()(value, error, args...)`: the
result of `convert` is either present with the error slot as it was before the
call, or empty with the diagnostic of the routine in the error slot; an empty
result comes with a non-empty message, and a present result leaves the error
slot equal to what it was. -/
theorem convert_forwards {R T Args : Type}
    (converter : Convertible R → Error → Args → Option T × Error)
    (routine : Converter R T Args)
    (value : Convertible R) (error : Error) (args : Args) :
    convert converter value error args = converter value error args ∧
    convert routine.call value error args = routine.call value error args ∧
    ((∃ t : T, convert routine.call value error args = (some t, error)) ∨
      (∃ diagnostic : Explanation,
        convert routine.call value error args = (none, { message := diagnostic.text }))) ∧
    ((convert routine.call value error args).1 = none →
      (convert routine.call value error args).2.message ≠ "") ∧
    ((convert routine.call value error args).1.isSome = true →
      (convert routine.call value error args).2 = error) := by
  refine ⟨rfl, rfl, ?_, ?_, ?_⟩
  · simp only [convert, Converter.call]
    cases routine.outcome value args with
    | present t => exact Or.inl ⟨t, rfl⟩
    | failed diagnostic => exact Or.inr ⟨diagnostic, rfl⟩
  · exact ((Converter.call_contract routine) value error args).1
  · exact ((Converter.call_contract routine) value error args).2

/-- C7 at the example routine: an array where an object is expected gives an
empty result and a message in the error slot; the example document gives its
member count and leaves the error slot as it was. -/
theorem convert_forwards_witness :
    (convert Example.memberCountRoutine.call
      (Convertible.ofValue Example.nodeType (.array [])) { message := "" } ()).1 = none ∧
    (convert Example.memberCountRoutine.call
      (Convertible.ofValue Example.nodeType (.array [])) { message := "" } ()).2.message ≠ "" ∧
    (convert Example.memberCountRoutine.call
      (Convertible.ofValue Example.nodeType Example.doc) { message := "before" } ()).1 = some 2 ∧
    (convert Example.memberCountRoutine.call
      (Convertible.ofValue Example.nodeType Example.doc) { message := "before" } ()).2 =
        { message := "before" } :=
  ⟨rfl,
   (convert_forwards Example.memberCount Example.memberCountRoutine
      (Convertible.ofValue Example.nodeType (.array [])) { message := "" } ()).2.2.2.1 rfl,
   rfl,
   (convert_forwards Example.memberCount Example.memberCountRoutine
      (Convertible.ofValue Example.nodeType Example.doc) { message := "before" } ()).2.2.2.2 rfl⟩

/-- C10: the templated constructor compiles for a native type of `sizeofT` bytes
exactly when `sizeofT` is at most `sizeof(Storage)`; `Storage` has 32 bytes on
Android and on Qt and 8 bytes everywhere else, with 8-byte alignment in every
case; so a value that a handle is constructed from is never larger than the
storage. -/
theorem storage_fits (p : Platform) (sizeofT : Nat) :
    (staticAssertHolds p sizeofT = true ↔ sizeofT ≤ sizeofStorage p) ∧
    sizeofStorage p = (if p.android || p.qt then 32 else 8) ∧
    storageAlign p = 8 := by
  refine ⟨by simp [staticAssertHolds], ?_, ?_⟩
  · rcases p with ⟨a, q⟩
    cases a <;> cases q <;> rfl
  · rcases p with ⟨a, q⟩
    cases a <;> cases q <;> rfl

/-- Visiting with a lambda that wraps each value is visiting the wrapped list. -/
theorem visitMembers_map {R C σ : Type} (wrap : R → C)
    (fn : String → C → σ → Option Error × σ) (ms : List (String × R)) (st : σ) :
    visitMembers (fun k v => fn k (wrap v)) ms st =
      visitMembers fn (ms.map (fun kv => (kv.1, wrap kv.2))) st := by
  induction ms generalizing st with
  | nil => rfl
  | cons m rest ih =>
    obtain ⟨k, v⟩ := m
    simp only [visitMembers, List.map_cons]
    cases h : fn k (wrap v) st with
    | mk res st1 =>
      cases res with
      | none => simpa using ih st1
      | some e => rfl

/-- When no call returns an error, the recording visitor receives every entry of
the list, in order. -/
theorem visitMembers_recording_all {C : Type}
    (verdict : List (String × C) → String → C → Option Error)
    (ws seen : List (String × C))
    (h : ∀ (j : Nat) (kj : String) (vj : C), ws[j]? = some (kj, vj) →
      verdict (seen ++ ws.take j) kj vj = none) :
    visitMembers (fun key value sn => (verdict sn key value, sn ++ [(key, value)])) ws seen =
      (none, seen ++ ws) := by
  induction ws generalizing seen with
  | nil => simp [visitMembers]
  | cons m rest ih =>
    obtain ⟨k, v⟩ := m
    have h0 : verdict seen k v = none := by simpa using h 0 k v (by simp)
    simp only [visitMembers, h0]
    rw [ih (seen ++ [(k, v)])]
    · simp
    · intro j kj vj hj
      have := h (j + 1) kj vj (by simpa using hj)
      simpa using this

/-- When the call on entry `k` is the first to return an error, the recording
visitor receives the entries up to and including entry `k`, and that error is
the result. -/
theorem visitMembers_recording_stop {C : Type}
    (verdict : List (String × C) → String → C → Option Error)
    (k : Nat) (ws seen : List (String × C)) (key : String) (value : C) (e : Error)
    (hk : ws[k]? = some (key, value))
    (hbefore : ∀ (j : Nat) (kj : String) (vj : C), j < k → ws[j]? = some (kj, vj) →
      verdict (seen ++ ws.take j) kj vj = none)
    (hat : verdict (seen ++ ws.take k) key value = some e) :
    visitMembers (fun key value sn => (verdict sn key value, sn ++ [(key, value)])) ws seen =
      (some e, seen ++ ws.take (k + 1)) := by
  induction k generalizing ws seen with
  | zero =>
    cases ws with
    | nil => simp at hk
    | cons m rest =>
      simp only [List.getElem?_cons_zero, Option.some.injEq] at hk
      subst hk
      have h0 : verdict seen key value = some e := by simpa using hat
      simp [visitMembers, h0]
  | succ n ih =>
    cases ws with
    | nil => simp at hk
    | cons m rest =>
      obtain ⟨k0, v0⟩ := m
      have h0 : verdict seen k0 v0 = none := by
        simpa using hbefore 0 k0 v0 (Nat.succ_pos n) (by simp)
      simp only [visitMembers, h0]
      rw [ih rest (seen ++ [(k0, v0)])]
      · simp
      · simpa using hk
      · intro j kj vj hj hget
        have := hbefore (j + 1) kj vj (Nat.succ_lt_succ hj) (by simpa using hget)
        simpa using this
      · simpa using hat

/-- C6: let the visitor record its calls and decide its return value from the
earlier calls, the key and the handle.  On the handle constructed from `r`
(move constructor preserving the value): if the call on member `k` is the first
that returns an error, the calls made are exactly those on members `0..k`, in
the adapter's order, each with the member's key and its value in a handle with
the parent's dispatch table, and `eachMember` returns that error; if no call
returns an error, every member is visited exactly once in that order and
`eachMember` returns nothing. -/
theorem eachMember_visits {R : Type} (T : VTableForType R) (hT : ValuePreservingMove T) (r : R)
    (verdict : List (String × Convertible R) → String → Convertible R → Option Error) :
    (∀ (k : Nat) (key : String) (value : Convertible R) (e : Error),
      (wrappedMembers T r)[k]? = some (key, value) →
      (∀ (j : Nat) (kj : String) (vj : Convertible R), j < k →
        (wrappedMembers T r)[j]? = some (kj, vj) →
        verdict ((wrappedMembers T r).take j) kj vj = none) →
      verdict ((wrappedMembers T r).take k) key value = some e →
      eachMember (Convertible.ofValue T r) (recordingVisitor verdict) [] =
        .ok (some e, (wrappedMembers T r).take (k + 1))) ∧
    ((∀ (j : Nat) (kj : String) (vj : Convertible R),
        (wrappedMembers T r)[j]? = some (kj, vj) →
        verdict ((wrappedMembers T r).take j) kj vj = none) →
      eachMember (Convertible.ofValue T r) (recordingVisitor verdict) [] =
        .ok (none, wrappedMembers T r)) := by
  have hT1 : ∀ x : R, (T.moveCtor x).1 = x := hT
  have hrun : eachMember (Convertible.ofValue T r) (recordingVisitor verdict) [] =
      .ok (visitMembers (recordingVisitor verdict) (wrappedMembers T r) []) := by
    simp only [eachMember, VTableForType.eachMember, Convertible.ofValue, Storage.read, hT1,
      ConversionTraits.eachMember, wrappedMembers]
    exact congrArg Except.ok
      (visitMembers_map (fun v => ({ vtable := some T, storage := .obj v 0 } : Convertible R))
        (recordingVisitor verdict) _ _)
  constructor
  · intro k key value e hk hbefore hat
    rw [hrun]
    have := visitMembers_recording_stop verdict k (wrappedMembers T r) [] key value e hk
      (by simpa using hbefore) (by simpa using hat)
    simpa [recordingVisitor] using this
  · intro hall
    rw [hrun]
    have := visitMembers_recording_all verdict (wrappedMembers T r) [] (by simpa using hall)
    simpa [recordingVisitor] using this

/-- C6 at the example document with a visitor that rejects member `b`: members
`a` and `b` are visited, in that order, and the error of the second visit is
returned; with a visitor that accepts everything both members are visited and
nothing is returned. -/
theorem eachMember_visits_witness :
    ValuePreservingMove Example.nodeType ∧
    eachMember (Convertible.ofValue Example.nodeType Example.doc)
        (recordingVisitor Example.rejectB) [] =
      .ok (some { message := "unknown member b" },
        [("a", { vtable := some Example.nodeType,
                 storage := .obj (.array [.bool true, .string "x"]) 0 }),
         ("b", { vtable := some Example.nodeType, storage := .obj (.string "y") 0 })]) ∧
    eachMember (Convertible.ofValue Example.nodeType Example.doc)
        (recordingVisitor (fun _ _ _ => none)) [] =
      .ok (none,
        [("a", { vtable := some Example.nodeType,
                 storage := .obj (.array [.bool true, .string "x"]) 0 }),
         ("b", { vtable := some Example.nodeType, storage := .obj (.string "y") 0 })]) :=
  ⟨Example.nodeType_valuePreserving,
   (eachMember_visits Example.nodeType Example.nodeType_valuePreserving Example.doc
      Example.rejectB).1 1 "b"
      { vtable := some Example.nodeType, storage := .obj (.string "y") 0 }
      { message := "unknown member b" } rfl
      (fun j kj vj hj hget => by
        have hj0 : j = 0 := by omega
        subst hj0
        have hkv : ("a", _) = (kj, vj) := Option.some.inj hget
        have hk : "a" = kj := (Prod.mk.inj hkv).1
        subst hk
        rfl)
      rfl,
   (eachMember_visits Example.nodeType Example.nodeType_valuePreserving Example.doc
      (fun _ _ _ => none)).2 (fun _ _ _ _ => rfl)⟩

/-! ## Handles at addresses -/

section WorldLemmas

variable {R : Type}

/-- A reference that can be read points into the list of handles. -/
theorem World.handle_lt {w : World R} {a : Nat} {h : Convertible R}
    (ha : w.handle a = .ok h) : a < w.handles.length := by
  unfold World.handle at ha
  by_contra hlt
  rw [List.getElem?_eq_none (Nat.le_of_not_lt hlt)] at ha
  simp at ha

/-- Reading a reference gives the entry of the list. -/
theorem World.handle_eq_ok_iff {w : World R} {a : Nat} {h : Convertible R} :
    w.handle a = .ok h ↔ w.handles[a]? = some (some h) := by
  unfold World.handle
  cases hget : w.handles[a]? with
  | none => simp
  | some o =>
    cases o with
    | none => simp
    | some h1 => simp

/-- Reading back what was written. -/
theorem World.handle_put_self {w : World R} {a : Nat} (h : Convertible R)
    (ha : a < w.handles.length) : (w.put a h).handle a = .ok h := by
  rw [World.handle_eq_ok_iff]
  simp [World.put, ha]

/-- A write does not change what another reference reads. -/
theorem World.handle_put_ne {w : World R} {a b : Nat} (h : Convertible R)
    (hab : a ≠ b) : (w.put a h).handle b = w.handle b := by
  simp [World.handle, World.put, List.getElem?_set_ne hab]

/-- The ledger does not change what a reference reads. -/
theorem World.handle_retire (w : World R) (s : Storage R) (a : Nat) :
    (w.retire s).handle a = w.handle a := by
  cases s <;> rfl

/-- A write keeps the number of addresses. -/
theorem World.length_put (w : World R) (a : Nat) (h : Convertible R) :
    (w.put a h).handles.length = w.handles.length := by
  simp [World.put]

/-- The ledger keeps the handles. -/
theorem World.handles_retire (w : World R) (s : Storage R) :
    (w.retire s).handles = w.handles := by
  cases s <;> rfl

/-- The relocation between two distinct handles, step by step. -/
theorem VTableForType.move_distinct (vt : VTableForType R) (w : World R) (src dest : Nat)
    (hs hd : Convertible R) (sv : R) (sn : Nat)
    (hsrc : w.handle src = .ok hs) (hst : hs.storage = .obj sv sn)
    (hne : src ≠ dest) (hdest : w.handle dest = .ok hd) :
    vt.move w src dest = .ok
      ((((w.put src { hs with storage := .obj (vt.moveCtor sv).2 sn }).retire hd.storage).put dest
        { hd with storage := .obj (vt.moveCtor (vt.moveCtor sv).1).1 0 }).retire
          (.obj (vt.moveCtor (vt.moveCtor sv).1).2 2)) := by
  unfold VTableForType.move
  simp only [hsrc, hst]
  rw [World.handle_put_ne _ hne, hdest]
  rfl

end WorldLemmas

section MoveTheorems

variable {R : Type}

/-- Reading a reference into a world extended by one handle. -/
theorem World.handle_append_left (w : World R) (o : Option (Convertible R)) {a : Nat}
    (ha : a < w.handles.length) :
    ({ w with handles := w.handles ++ [o] } : World R).handle a = w.handle a := by
  simp [World.handle, List.getElem?_append_left ha]

/-- Reading the handle a world was extended by. -/
theorem World.handle_append_new (w : World R) (h : Convertible R) :
    ({ w with handles := w.handles ++ [some h] } : World R).handle w.handles.length = .ok h := by
  simp [World.handle]

/-- The move constructor on a handle that holds a value, step by step. -/
theorem World.moveConstruct_holding (w : World R) (a : Nat) (T : VTableForType R) (r : R)
    (n : Nat) (ha : w.handle a = .ok { vtable := some T, storage := .obj r n }) :
    w.moveConstruct a = .ok
      ((((({ w with handles := w.handles ++ [some { vtable := some T, storage := .raw }] } :
          World R).put a { vtable := some T, storage := .obj (T.moveCtor r).2 n }).put
            w.handles.length
            { vtable := some T, storage := .obj (T.moveCtor (T.moveCtor r).1).1 0 }).retire
          (.obj (T.moveCtor (T.moveCtor r).1).2 2)), w.handles.length) := by
  have hlt := World.handle_lt ha
  unfold World.moveConstruct
  simp only [ha]
  rw [VTableForType.move_distinct T _ a w.handles.length
    { vtable := some T, storage := .obj r n } { vtable := some T, storage := .raw } r n
    (by rw [World.handle_append_left w _ hlt]; exact ha) rfl (Nat.ne_of_lt hlt)
    (World.handle_append_new w _)]
  rfl

/-- The destroy operation on a handle whose storage holds an object. -/
theorem VTableForType.destroy_obj (vt : VTableForType R) (w : World R) (a : Nat)
    (h : Convertible R) (v : R) (n : Nat)
    (ha : w.handle a = .ok h) (hst : h.storage = .obj v n) :
    vt.destroy w a = .ok (w.put a { h with storage := .obj v (n + 1) }) := by
  unfold VTableForType.destroy
  simp [ha, hst, Storage.destruct]

/-- Move assignment of a handle that holds a value to a distinct handle: the
target receives the dispatch table and the twice-moved value, the source keeps
the moved-from object and its dispatch-table pointer is null. -/
theorem World.moveAssign_holding (w : World R) (a b : Nat) (T : VTableForType R) (r : R)
    (n : Nat) (hB : Convertible R)
    (ha : w.handle a = .ok { vtable := some T, storage := .obj r n })
    (hab : b ≠ a) (hb : w.handle b = .ok hB)
    (hwf : hB.vtable.isSome = true → ∃ v m, hB.storage = .obj v m) :
    ∃ w1 : World R, w.moveAssign b a = .ok w1 ∧
      w1.handle b =
        .ok { vtable := some T, storage := .obj (T.moveCtor (T.moveCtor r).1).1 0 } ∧
      w1.handle a = .ok { vtable := none, storage := .obj (T.moveCtor r).2 n } := by
  have hblt := World.handle_lt hb
  have halt := World.handle_lt ha
  have key : ∀ (h1 : Convertible R) (w1 : World R), w1.handle b = .ok h1 →
      w1.handle a = .ok { vtable := some T, storage := .obj r n } →
      ∃ w4 : World R,
      (match w1.handle b, w1.handle a with
        | .error f, _ => Except.error f
        | _, .error f => Except.error f
        | .ok h1, .ok hv =>
          let w2 := w1.put b { h1 with vtable := hv.vtable }
          let step3 : Except Fault (World R) :=
            match hv.vtable with
            | some vt => vt.move w2 a b
            | none => .ok w2
          match step3 with
          | .error f => .error f
          | .ok w3 =>
            match w3.handle a with
            | .error f => .error f
            | .ok hv3 => .ok (w3.put a { hv3 with vtable := none })) = .ok w4 ∧
      w4.handle b =
        .ok { vtable := some T, storage := .obj (T.moveCtor (T.moveCtor r).1).1 0 } ∧
      w4.handle a = .ok { vtable := none, storage := .obj (T.moveCtor r).2 n } := by
    intro h1 w1 e1 e2
    have hblt1 := World.handle_lt e1
    have halt1 := World.handle_lt e2
    simp only [e1, e2]
    have e3 : (w1.put b { h1 with vtable := some T }).handle a =
        .ok { vtable := some T, storage := .obj r n } := by
      rw [World.handle_put_ne _ hab]; exact e2
    have e4 : (w1.put b { h1 with vtable := some T }).handle b =
        .ok { h1 with vtable := some T } :=
      World.handle_put_self _ hblt1
    rw [VTableForType.move_distinct T _ a b _ _ r n e3 rfl (Ne.symm hab) e4]
    simp only
    rw [World.handle_retire, World.handle_put_ne _ hab, World.handle_retire,
      World.handle_put_self _ (by simpa [World.length_put] using halt1)]
    refine ⟨_, rfl, ?_, ?_⟩
    · rw [World.handle_put_ne _ (Ne.symm hab), World.handle_retire]
      exact World.handle_put_self _
        (by simpa [World.length_put, World.handles_retire] using hblt1)
    · exact World.handle_put_self _
        (by simpa [World.length_put, World.handles_retire] using halt1)
  obtain ⟨vtb, sb⟩ := hB
  unfold World.moveAssign
  simp only [hb]
  cases vtb with
  | none => exact key _ w hb ha
  | some vtB =>
    obtain ⟨v, m, hst⟩ := hwf rfl
    simp only at hst
    subst hst
    simp only
    rw [VTableForType.destroy_obj vtB w b _ v m hb rfl]
    exact key _ _ (World.handle_put_self _ hblt)
      (by rw [World.handle_put_ne _ hab]; exact ha)

end MoveTheorems

section LifetimeTheorems

variable {R : Type}

/-- The move constructor on a handle that holds a value: the new handle receives
the dispatch table and the twice-moved value, the source keeps its dispatch
table and the moved-from object, and the local of the relocation enters the
ledger with two destructor calls. -/
theorem World.moveConstruct_handles (w : World R) (a : Nat) (T : VTableForType R) (r : R)
    (n : Nat) (ha : w.handle a = .ok { vtable := some T, storage := .obj r n }) :
    ∃ w1 : World R, w.moveConstruct a = .ok (w1, w.handles.length) ∧
      w1.handle w.handles.length =
        .ok { vtable := some T, storage := .obj (T.moveCtor (T.moveCtor r).1).1 0 } ∧
      w1.handle a = .ok { vtable := some T, storage := .obj (T.moveCtor r).2 n } ∧
      w1.retired = w.retired ++ [2] := by
  have hlt := World.handle_lt ha
  refine ⟨_, World.moveConstruct_holding w a T r n ha, ?_, ?_, rfl⟩
  · rw [World.handle_retire]
    exact World.handle_put_self _ (by simp [World.length_put])
  · rw [World.handle_retire, World.handle_put_ne _ (Nat.ne_of_lt hlt).symm]
    exact World.handle_put_self _ (by simp; omega)

/-- C2: let the handle at `a` hold the value `r` of a native type whose move
constructor preserves the value.  The handle move-constructed from it, and any
distinct handle it is move-assigned to, is afterwards what the handle at `a`
was before: it has the same dispatch table and its storage holds a live object
of value `r`.  Every query is a function of the handle, so every query on it
returns what the query on the source returned before the move. -/
theorem move_transfers_value (w : World R) (a : Nat) (T : VTableForType R) (r : R)
    (hT : ValuePreservingMove T)
    (ha : w.handle a = .ok { vtable := some T, storage := .obj r 0 }) :
    (∃ w1 : World R, w.moveConstruct a = .ok (w1, w.handles.length) ∧
      w1.handle w.handles.length = .ok { vtable := some T, storage := .obj r 0 }) ∧
    (∀ (b : Nat) (hB : Convertible R), b ≠ a → w.handle b = .ok hB →
      (hB.vtable.isSome = true → ∃ v m, hB.storage = .obj v m) →
      ∃ w1 : World R, w.moveAssign b a = .ok w1 ∧
        w1.handle b = .ok { vtable := some T, storage := .obj r 0 }) := by
  have h2 : (T.moveCtor (T.moveCtor r).1).1 = r := by rw [hT r, hT r]
  constructor
  · obtain ⟨w1, hrun, hnew, _, _⟩ := World.moveConstruct_handles w a T r 0 ha
    exact ⟨w1, hrun, by rw [hnew, h2]⟩
  · intro b hB hab hb hwf
    obtain ⟨w1, hrun, hnew, _⟩ := World.moveAssign_holding w a b T r 0 hB ha hab hb hwf
    exact ⟨w1, hrun, by rw [hnew, h2]⟩

/-- The destructor on a handle whose dispatch-table pointer is set is one call of
the destroy operation, followed by the end of the handle. -/
theorem World.destroyHandle_some (w : World R) (a : Nat) (vt : VTableForType R)
    (s : Storage R) (ha : w.handle a = .ok { vtable := some vt, storage := s }) :
    w.destroyHandle a =
      (match vt.destroy w a with
       | .error f => .error f
       | .ok w1 => w1.release a) := by
  unfold World.destroyHandle
  simp only [ha]

/-- C9: the destructor of a handle whose dispatch-table pointer is set is exactly
one call of the destroy operation on its storage, after which the handle is
gone: the object in the storage leaves with one destructor call more than it
had.  The destructor of a handle whose pointer is null does nothing to the
storage: the object in it, if any, leaves with the destructor calls it had. -/
theorem destructor_destroys_once (w : World R) (a : Nat) (vt : VTableForType R) :
    (∀ s : Storage R, w.handle a = .ok { vtable := some vt, storage := s } →
      w.destroyHandle a =
        (match vt.destroy w a with
         | .error f => .error f
         | .ok w1 => w1.release a)) ∧
    (∀ (v : R) (n : Nat), w.handle a = .ok { vtable := some vt, storage := .obj v n } →
      vt.destroy w a = .ok (w.put a { vtable := some vt, storage := .obj v (n + 1) }) ∧
      w.destroyHandle a =
        .ok { handles := w.handles.set a none, retired := w.retired ++ [n + 1] }) ∧
    (∀ s : Storage R, w.handle a = .ok { vtable := none, storage := s } →
      w.destroyHandle a =
        .ok { handles := w.handles.set a none, retired := (w.retire s).retired }) := by
  refine ⟨fun s ha => World.destroyHandle_some w a vt s ha, ?_, ?_⟩
  · intro v n ha
    have hd := VTableForType.destroy_obj vt w a _ v n ha rfl
    refine ⟨hd, ?_⟩
    rw [World.destroyHandle_some w a vt _ ha, hd]
    simp only [World.release,
      World.handle_put_self (w := w) _ (World.handle_lt ha)]
    simp [World.retire, World.put]
  · intro s ha
    unfold World.destroyHandle
    simp only [ha, World.release]

end LifetimeTheorems

/-- The world of the examples: handle 0 is constructed from the example document,
handle 1 from a string node. -/
theorem Example.two_handles :
    (((Example.empty.construct Example.nodeType Example.doc).1.construct Example.nodeType
      (.string "old")).1).handle 0 =
      .ok { vtable := some Example.nodeType, storage := .obj Example.doc 0 } :=
  rfl

/-- C2 in the world of the examples: the handle move-constructed from handle 0
and handle 1 after handle 0 was move-assigned to it are what handle 0 was. -/
theorem move_transfers_value_witness :
    ValuePreservingMove Example.nodeType ∧
    (∃ w1 : World Example.Node,
      (((Example.empty.construct Example.nodeType Example.doc).1.construct Example.nodeType
        (.string "old")).1).moveConstruct 0 = .ok (w1, 2) ∧
      w1.handle 2 = .ok { vtable := some Example.nodeType, storage := .obj Example.doc 0 }) ∧
    (∃ w1 : World Example.Node,
      (((Example.empty.construct Example.nodeType Example.doc).1.construct Example.nodeType
        (.string "old")).1).moveAssign 1 0 = .ok w1 ∧
      w1.handle 1 = .ok { vtable := some Example.nodeType, storage := .obj Example.doc 0 }) :=
  ⟨Example.nodeType_valuePreserving,
   (move_transfers_value _ 0 Example.nodeType Example.doc Example.nodeType_valuePreserving
      Example.two_handles).1,
   (move_transfers_value _ 0 Example.nodeType Example.doc Example.nodeType_valuePreserving
      Example.two_handles).2 1
      { vtable := some Example.nodeType, storage := .obj (.string "old") 0 }
      (by decide) rfl (fun _ => ⟨_, _, rfl⟩)⟩

/-- C9 in the world of the examples: destroying handle 0, which holds the
document, runs the destructor of the document object once; destroying it after
it was move-assigned to handle 1, when its pointer is null, runs no destructor
on the object left in its storage. -/
theorem destructor_destroys_once_witness :
    (((Example.empty.construct Example.nodeType Example.doc).1.construct Example.nodeType
      (.string "old")).1).destroyHandle 0 =
      .ok { handles := [none, some { vtable := some Example.nodeType,
                                      storage := .obj (.string "old") 0 }],
            retired := [1] } ∧
    ({ handles := [some { vtable := none, storage := .obj Example.doc 0 }],
       retired := [] } : World Example.Node).destroyHandle 0 =
      .ok { handles := [none], retired := [0] } :=
  ⟨((destructor_destroys_once _ 0 Example.nodeType).2.1 Example.doc 0
      Example.two_handles).2,
   (destructor_destroys_once _ 0 Example.nodeType).2.2 (.obj Example.doc 0) rfl⟩

/-- C3 in the world of the examples: after handle 2 was move-constructed from
handle 0, handle 0 still has its dispatch-table pointer (over the moved-from
object); after handle 0 was move-assigned to handle 1, the pointer of handle 0
is null. -/
theorem moveConstruct_keeps_source_vtable :
    (∃ w1 : World Example.Node,
      (((Example.empty.construct Example.nodeType Example.doc).1.construct Example.nodeType
        (.string "old")).1).moveConstruct 0 = .ok (w1, 2) ∧
      w1.handle 0 = .ok { vtable := some Example.nodeType, storage := .obj .null 0 }) ∧
    (∃ w1 : World Example.Node,
      (((Example.empty.construct Example.nodeType Example.doc).1.construct Example.nodeType
        (.string "old")).1).moveAssign 1 0 = .ok w1 ∧
      w1.handle 0 = .ok { vtable := none, storage := .obj .null 0 }) :=
  ⟨⟨_, rfl, rfl⟩, ⟨_, rfl, rfl⟩⟩

/-- C4 in the world of the examples.  Move construction of B from A, then the
destruction of B and A: the local of the relocation receives two destructor
calls, the object of B and the moved-from object of A one each.  Move
assignment of A to B, then the destruction of A and B: the former object of B
receives one call, the local of the relocation two, the moved-from object of A
none, the new object of B one. -/
theorem relocation_destroys_local_twice :
    Example.moveConstructRun = .ok { handles := [none, none], retired := [2, 1, 1] } ∧
    Example.moveAssignRun = .ok { handles := [none, none], retired := [1, 2, 0, 1] } :=
  ⟨rfl, rfl⟩

section SelfAssignment

variable {R : Type}

/-- Writing to a reference what it already reads changes nothing. -/
theorem World.put_same (w : World R) (a : Nat) (h : Convertible R)
    (ha : w.handle a = .ok h) : w.put a h = w := by
  have hget := World.handle_eq_ok_iff.mp ha
  have hset : w.handles.set a (some h) = w.handles := by
    apply List.ext_getElem?
    intro i
    by_cases hi : a = i
    · subst hi
      simp [World.handle_lt ha, hget]
    · simp [List.getElem?_set_ne hi]
  simp only [World.put, hset]

/-- Reading the reference that a list of handles was just updated at. -/
theorem World.handle_mk_set (l : List (Option (Convertible R))) (rt : List Nat) (a : Nat)
    (h : Convertible R) (ha : a < l.length) :
    ({ handles := l.set a (some h), retired := rt } : World R).handle a = .ok h := by
  rw [World.handle_eq_ok_iff]
  simp [ha]

/-- The relocation with one handle as source and destination, step by step: the
object in the storage is moved from, then overwritten by the new object, and so
leaves with the destructor calls it had; the local leaves with two. -/
theorem VTableForType.move_self (vt : VTableForType R) (w : World R) (a : Nat)
    (pv : Option (VTableForType R)) (sv : R) (sn : Nat)
    (ha : w.handle a = .ok { vtable := pv, storage := .obj sv sn }) :
    vt.move w a a = .ok
      { handles := w.handles.set a
          (some { vtable := pv, storage := .obj (vt.moveCtor (vt.moveCtor sv).1).1 0 }),
        retired := w.retired ++ [sn, 2] } := by
  have hlt := World.handle_lt ha
  unfold VTableForType.move
  simp only [ha]
  rw [World.handle_put_self _ hlt]
  simp [World.retire, World.put, Storage.destruct]

/-- C12: let the handle at `a` hold a value `r`.  Move-assigning it to itself
first runs the destroy operation on its storage (the object of value `r` has
received its destructor call), then runs the relocation with this destroyed
storage as source and as destination, and finally clears the dispatch-table
pointer: afterwards the handle has a null pointer, the original object is in
the ledger with one destructor call and the local of the relocation with two. -/
theorem self_move_assign_clears (w : World R) (a : Nat) (T : VTableForType R) (r : R)
    (ha : w.handle a = .ok { vtable := some T, storage := .obj r 0 }) :
    ∃ w1 w3 w4 : World R,
      T.destroy w a = .ok w1 ∧
      w1.handle a = .ok { vtable := some T, storage := .obj r 1 } ∧
      T.move w1 a a = .ok w3 ∧
      w.moveAssign a a = .ok w4 ∧
      w4 = w3.put a
        { vtable := none, storage := .obj (T.moveCtor (T.moveCtor r).1).1 0 } ∧
      w4.handle a =
        .ok { vtable := none, storage := .obj (T.moveCtor (T.moveCtor r).1).1 0 } ∧
      w4.retired = w.retired ++ [1, 2] := by
  have hlt := World.handle_lt ha
  have hd : T.destroy w a = .ok (w.put a { vtable := some T, storage := .obj r 1 }) :=
    VTableForType.destroy_obj T w a _ r 0 ha rfl
  have h1 : (w.put a { vtable := some T, storage := .obj r 1 }).handle a =
      .ok { vtable := some T, storage := .obj r 1 } :=
    World.handle_put_self _ hlt
  have hlt1 : a < (w.put a { vtable := some T, storage := .obj r 1 }).handles.length := by
    simpa [World.length_put] using hlt
  have hm := VTableForType.move_self T _ a (some T) r 1 h1
  refine ⟨_, _, _, hd, h1, hm, ?_, rfl, ?_, ?_⟩
  · unfold World.moveAssign
    simp only [ha, hd, h1]
    rw [World.put_same _ a _ h1, hm]
    simp only [World.handle_mk_set _ _ a _ hlt1]
  · exact World.handle_put_self _ (by simpa using hlt1)
  · simp [World.put]

end SelfAssignment

/-- The one-handle world of the examples. -/
theorem Example.one_handle :
    ((Example.empty.construct Example.nodeType Example.doc).1).handle 0 =
      .ok { vtable := some Example.nodeType, storage := .obj Example.doc 0 } :=
  rfl

/-- C12 in the world of the examples: after the handle on the document was
move-assigned to itself its pointer is null, and the ledger holds the document
object with one destructor call and the local of the relocation with two. -/
theorem self_move_assign_clears_witness :
    ((Example.empty.construct Example.nodeType Example.doc).1).handle 0 =
      .ok { vtable := some Example.nodeType, storage := .obj Example.doc 0 } ∧
    ∃ w1 w3 w4 : World Example.Node,
      Example.nodeType.destroy (Example.empty.construct Example.nodeType Example.doc).1 0 =
        .ok w1 ∧
      w1.handle 0 = .ok { vtable := some Example.nodeType, storage := .obj Example.doc 1 } ∧
      Example.nodeType.move w1 0 0 = .ok w3 ∧
      ((Example.empty.construct Example.nodeType Example.doc).1).moveAssign 0 0 = .ok w4 ∧
      w4 = w3.put 0 { vtable := none, storage := .obj Example.doc 0 } ∧
      w4.handle 0 = .ok { vtable := none, storage := .obj Example.doc 0 } ∧
      w4.retired = [1, 2] :=
  ⟨Example.one_handle,
   self_move_assign_clears _ 0 Example.nodeType Example.doc Example.one_handle⟩

/-- The move constructor of the bare-number type preserves the value. -/
theorem Example.numberType_valuePreserving : ValuePreservingMove Example.numberType :=
  fun _ => rfl

/-- The bare-number adapter extracts scalars as the contract prescribes. -/
theorem Example.numberType_toValue (x : NativeNumber) :
    Example.numberType.Traits.toValue x = numberToValue x :=
  rfl

/-- C11: let the adapter extract the scalar of a node `r` holding the number
`x` as the contract prescribes (move constructor preserving the value).  Then
`toValue` on the handle constructed from `r` yields the unsigned alternative
when the number is a non-negative integer, the signed alternative when it is a
negative integer, and the double alternative when it is held as a double.  For
bare numbers: 3, held unsigned or signed, yields unsigned 3, the number -3
yields signed -3, and 3.5 yields the double 3.5. -/
theorem toValue_numeric_preference {R : Type} (T : VTableForType R)
    (hT : ValuePreservingMove T) (r : R) (x : NativeNumber)
    (hx : T.Traits.toValue r = numberToValue x) :
    (∀ i : Int, x.integer = some i → 0 ≤ i →
      toValue (Convertible.ofValue T r) = .ok (some (.uint64 i.toNat))) ∧
    (∀ i : Int, x.integer = some i → i < 0 →
      toValue (Convertible.ofValue T r) = .ok (some (.int64 i))) ∧
    (x.integer = none →
      ∃ d : CDouble, x = .real d ∧
        toValue (Convertible.ofValue T r) = .ok (some (.double d))) ∧
    toValue (Convertible.ofValue Example.numberType (.unsignedInt 3)) =
      .ok (some (.uint64 3)) ∧
    toValue (Convertible.ofValue Example.numberType (.signedInt 3)) =
      .ok (some (.uint64 3)) ∧
    toValue (Convertible.ofValue Example.numberType (.signedInt (-3))) =
      .ok (some (.int64 (-3))) ∧
    toValue (Convertible.ofValue Example.numberType (.real Example.threeAndHalf)) =
      .ok (some (.double Example.threeAndHalf)) := by
  have hfw : toValue (Convertible.ofValue T r) = .ok (numberToValue x) := by
    simp [toValue, VTableForType.toValue, Convertible.ofValue, Storage.read, hT r, hx]
  refine ⟨?_, ?_, ?_, rfl, rfl, rfl, rfl⟩
  · intro i hi hpos
    rw [hfw]
    cases x with
    | unsignedInt n =>
      simp only [NativeNumber.integer, Option.some.injEq] at hi
      subst hi
      simp [numberToValue, NativeNumber.asUnsigned]
    | signedInt j =>
      simp only [NativeNumber.integer, Option.some.injEq] at hi
      subst hi
      simp [numberToValue, NativeNumber.asUnsigned, hpos]
    | real d => simp [NativeNumber.integer] at hi
  · intro i hi hneg
    rw [hfw]
    cases x with
    | unsignedInt n =>
      simp only [NativeNumber.integer, Option.some.injEq] at hi
      subst hi
      exact absurd hneg (by simp)
    | signedInt j =>
      simp only [NativeNumber.integer, Option.some.injEq] at hi
      subst hi
      simp [numberToValue, NativeNumber.asUnsigned, NativeNumber.asSigned, Int.not_le.mpr hneg]
    | real d => simp [NativeNumber.integer] at hi
  · intro hnone
    cases x with
    | unsignedInt n => simp [NativeNumber.integer] at hnone
    | signedInt j => simp [NativeNumber.integer] at hnone
    | real d =>
      refine ⟨d, rfl, ?_⟩
      rw [hfw]
      rfl

/-- C11 at bare numbers other than those of the statement: 7 held as a signed
integer yields unsigned 7, the number -7 yields signed -7, and a number held as
a double yields that double. -/
theorem toValue_numeric_preference_witness :
    ValuePreservingMove Example.numberType ∧
    toValue (Convertible.ofValue Example.numberType (.signedInt 7)) =
      .ok (some (.uint64 7)) ∧
    toValue (Convertible.ofValue Example.numberType (.signedInt (-7))) =
      .ok (some (.int64 (-7))) ∧
    (∃ d : CDouble, NativeNumber.real { bits := 0x3FF8000000000000 } = .real d ∧
      toValue (Convertible.ofValue Example.numberType (.real { bits := 0x3FF8000000000000 })) =
        .ok (some (.double d))) :=
  ⟨Example.numberType_valuePreserving,
   (toValue_numeric_preference Example.numberType Example.numberType_valuePreserving
      (.signedInt 7) (.signedInt 7) (Example.numberType_toValue _)).1 7 rfl (by decide),
   (toValue_numeric_preference Example.numberType Example.numberType_valuePreserving
      (.signedInt (-7)) (.signedInt (-7)) (Example.numberType_toValue _)).2.1 (-7) rfl (by decide),
   (toValue_numeric_preference Example.numberType Example.numberType_valuePreserving
      (.real { bits := 0x3FF8000000000000 }) (.real { bits := 0x3FF8000000000000 })
      (Example.numberType_toValue _)).2.2.1
      rfl⟩

end mbgl.style.conversion
